import Mathlib

/-!
Verification development for the fiskal-hr library (Croatian fiscalization
client). The definitions below are a shallow embedding of the Python sources
under src/fiskalhr/: pure functions become Lean functions, fallible
constructors become Except-valued functions, Python Decimal values with two
fractional digits are represented exactly as rationals (or as integer counts
of hundredths where noted), and Python int strings are modelled by an
executable decimal formatter. Machine 32-bit words in the hash functions are
Nat values reduced modulo 2 ^ 32. Python regular expression classes \d and
[0-9a-zA-Z] are modelled over the ASCII ranges they denote, which is the
alphabet of all values occurring in this protocol.
-/

set_option maxRecDepth 10000

namespace FiskalHR

/-! ## Decimal-string utilities (model of Python str on int and Decimal) -/

/-- Single decimal digit to character. Total: inputs above nine map to the
digit nine, but all call sites pass values reduced modulo ten. -/
def digitChar : Nat → Char
  | 0 => '0' | 1 => '1' | 2 => '2' | 3 => '3' | 4 => '4'
  | 5 => '5' | 6 => '6' | 7 => '7' | 8 => '8' | _ => '9'

/-- Fuel-driven decimal formatter accumulator. Fuel of n + 1 always
suffices for the number n, since the digit count of n is at most n + 1. -/
def natStrGo : Nat → Nat → List Char → List Char
  | 0, _, acc => acc
  | fuel + 1, n, acc =>
    if n < 10 then digitChar n :: acc
    else natStrGo fuel (n / 10) (digitChar (n % 10) :: acc)

/-- Model of Python str on a nonnegative integer: decimal digits, no sign. -/
def natStr (n : Nat) : String :=
  String.mk (natStrGo (n + 1) n [])

/-- Model of Python str on an int: optional leading minus sign. -/
def intStr (i : Int) : String :=
  (if i < 0 then "-" else "") ++ natStr i.natAbs

/-- Zero-pad a number to at least two decimal digits (strftime %d, %m, %H,
%M, %S behaviour). -/
def pad2 (n : Nat) : String :=
  if n < 10 then String.mk ['0', digitChar n] else natStr n

/-- Zero-pad a number to at least four decimal digits (strftime %Y). -/
def pad4 (n : Nat) : String :=
  if n < 10 then "000" ++ natStr n
  else if n < 100 then "00" ++ natStr n
  else if n < 1000 then "0" ++ natStr n
  else natStr n

/-- Model of Python str on a Decimal with exponent minus two, with the value
given as an integer count of hundredths: sign, integral part, dot, exactly
two fractional digits. -/
def decimal2str (cents : Int) : String :=
  (if cents < 0 then "-" else "")
    ++ natStr (cents.natAbs / 100) ++ "." ++ pad2 (cents.natAbs % 100)

/-! ## Fixed-point amounts (model of src/fiskalhr/utils.py) -/

/-- Floor of a rational as an integer, computable. -/
def ratFloor (q : Rat) : Int :=
  Int.fdiv q.num q.den

/-- Round a rational to the nearest integer, ties to the even integer.
This is the ROUND_HALF_EVEN rounding used by the default Python Decimal
context, which quantize applies in to_decimal2 and TaxItem. -/
def roundHalfEven (q : Rat) : Int :=
  let f := ratFloor q
  let r := q - (f : Rat)
  if r < 1 / 2 then f
  else if 1 / 2 < r then f + 1
  else if f % 2 = 0 then f else f + 1

/-- Model of to_decimal2 (src/fiskalhr/utils.py): quantize a numeric value
to exactly two fractional decimal digits. The Python original works in the
default Decimal context (28 significant digits, ROUND_HALF_EVEN); the model
uses exact rational arithmetic, which agrees on every value whose
intermediate results fit in 28 significant digits. -/
def to_decimal2 (q : Rat) : Rat :=
  ((roundHalfEven (100 * q) : Int) : Rat) / 100

/-! ## OIB checksum (model of src/fiskalhr/oib.py) -/

/-- Numeric value of an ASCII digit character (model of Python int on a
one-character digit string). -/
def digitVal (c : Char) : Nat :=
  c.toNat - 48

/-- One step of the OIB checksum recurrence from OIB._calc_checksum:
csum becomes (d + csum) mod 10, zero is replaced by ten, then the result
is doubled modulo eleven. -/
def checksumStep (csum d : Nat) : Nat :=
  let c1 := (d + csum) % 10
  let c2 := if c1 = 0 then 10 else c1
  c2 * 2 % 11

/-- Model of OIB._calc_checksum: fold the recurrence over the first ten
digit characters starting from ten, then return (11 - csum) mod 10. -/
def OIB.calcChecksum (val : List Char) : Nat :=
  (11 - (val.take 10).foldl (fun csum c => checksumStep csum (digitVal c)) 10) % 10

/-- Error raised by OIB validation: either the format check (not exactly
eleven digits) or the control-digit mismatch, which carries the actual
digit character and the expected checksum as in the Python message. -/
inductive OIBError where
  | format : OIBError
  | mismatch (actual : Char) (expected : Nat) : OIBError
deriving DecidableEq, Repr

/-- Model of OIB._verify: reject unless the string is exactly eleven ASCII
digits, then reject unless the eleventh digit equals the computed checksum. -/
def OIB.verify (val : String) : Except OIBError Unit :=
  if val.data.length == 11 && val.data.all Char.isDigit then
    let csum := OIB.calcChecksum val.data
    if csum != digitVal (val.data.getD 10 '0') then
      .error (.mismatch (val.data.getD 10 '0') csum)
    else .ok ()
  else .error .format

/-- Validated OIB value object (src/fiskalhr/oib.py). -/
structure OIB where
  value : String
deriving DecidableEq, Repr

/-- Model of the OIB constructor on a string argument: verify, then store. -/
def OIB.init (val : String) : Except OIBError OIB :=
  match OIB.verify val with
  | .ok _ => .ok ⟨val⟩
  | .error e => .error e

/-- Spec-side transcription of the checksum recurrence exactly as the claim
words it: acc starts at 10; for each digit d of the first ten, acc becomes
(d + acc) mod 10, zero acc is replaced by ten, then acc is doubled modulo
eleven; the expected digit is (11 - acc) mod 10. Stated over digit values
by direct recursion, to be compared with the source-side fold. -/
def checksumSpecAcc : Nat → List Nat → Nat
  | acc, [] => acc
  | acc, d :: ds =>
      checksumSpecAcc ((if (d + acc) % 10 = 0 then 10 else (d + acc) % 10) * 2 % 11) ds

/-- Spec-side expected control digit over the list of the first ten digit
values. -/
def checksumSpec (digits : List Nat) : Nat :=
  (11 - checksumSpecAcc 10 digits) % 10

/-! ## Invoice number (model of src/fiskalhr/invoice.py, InvoiceNumber) -/

/-- ASCII alphanumeric test, the character class 0-9 a-z A-Z of the invoice
number pattern. -/
def asciiAlnum (c : Char) : Bool :=
  c.isDigit || ('a' ≤ c && c ≤ 'z') || ('A' ≤ c && c ≤ 'Z')

/-- Split a character list on the slash separator. Always returns at least
one (possibly empty) part; parts contain no slash. -/
def splitSlash : List Char → List (List Char)
  | [] => [[]]
  | c :: rest =>
    match splitSlash rest with
    | [] => [[]]
    | p :: ps => if c = '/' then [] :: p :: ps else (c :: p) :: ps

/-- Join character lists with slash separators, the inverse of splitSlash. -/
def joinSlash : List (List Char) → List Char
  | [] => []
  | [p] => p
  | p :: ps => p ++ '/' :: joinSlash ps

/-- Numeric value of a digit string (model of Python int on a string of
ASCII digits). -/
def natOfDigits (l : List Char) : Nat :=
  l.foldl (fun acc c => 10 * acc + digitVal c) 0

/-- Invoice number value object (src/fiskalhr/invoice.py). Stores the
complete original string plus the three parsed components. -/
structure InvoiceNumber where
  invoice_number : String
  sequence_number : Nat
  location_code : String
  device_number : Nat
deriving DecidableEq, Repr

/-- Model of the InvoiceNumber constructor on a string: full-match the
pattern digits slash alphanumerics slash digits, store the original string
and the parsed components; otherwise a format ValueError. -/
def InvoiceNumber.init (value : String) : Except String InvoiceNumber :=
  match splitSlash value.data with
  | [a, b, c] =>
    if !a.isEmpty && a.all Char.isDigit
        && !b.isEmpty && b.all asciiAlnum
        && !c.isEmpty && c.all Char.isDigit then
      .ok ⟨value, natOfDigits a, String.mk b, natOfDigits c⟩
    else .error "Invoice number must be in format nnn/ABC/nnn"
  | _ => .error "Invoice number must be in format nnn/ABC/nnn"

/-- Model of InvoiceNumber.__str__: the stored complete string. -/
def InvoiceNumber.str (x : InvoiceNumber) : String :=
  x.invoice_number

/-- Model of InvoiceNumber.__eq__: equality of the complete strings only. -/
def InvoiceNumber.beq (x y : InvoiceNumber) : Bool :=
  x.invoice_number == y.invoice_number

/-- Spec-side pattern of claim C5: the whole string decomposes as a
nonempty digit run, a slash, a nonempty ASCII alphanumeric run, a slash,
and a nonempty digit run. -/
def InvoicePattern (s : String) : Prop :=
  ∃ a b c : List Char,
    s.data = a ++ '/' :: (b ++ '/' :: c)
      ∧ a ≠ [] ∧ a.all Char.isDigit
      ∧ b ≠ [] ∧ b.all asciiAlnum
      ∧ c ≠ [] ∧ c.all Char.isDigit

/-! ## Tax items (model of src/fiskalhr/item.py) -/

/-- Validated tax line: normalized base, rate and amount. -/
structure TaxItem where
  base : Rat
  rate : Rat
  amount : Rat
deriving DecidableEq, Repr

/-- Model of the TaxItem constructor: normalize the three inputs to two
fractional digits, recompute the amount as base times rate over one hundred
quantized to two fractional digits, and fail if it differs from the
provided amount. -/
def TaxItem.init (base rate amount : Rat) : Except String TaxItem :=
  let b := to_decimal2 base
  let r := to_decimal2 rate
  let a := to_decimal2 amount
  let calculated := to_decimal2 (b * r / 100)
  if calculated = a then .ok ⟨b, r, a⟩
  else .error "Calculated tax amount differs from provided"

/-! ## Timestamps and strftime (model of datetime.strftime as used here) -/

/-- Timestamp record standing for a Python datetime value: the six broken
down calendar and clock fields used by the formats in this code base. -/
structure PyDateTime where
  year : Nat
  month : Nat
  day : Nat
  hour : Nat
  minute : Nat
  second : Nat
deriving DecidableEq, Repr

/-- Expansion of one strftime directive character for the directives used
in this code base; an unknown directive is kept literally. -/
def strftimeDirective (dt : PyDateTime) : Char → String
  | 'd' => pad2 dt.day
  | 'm' => pad2 dt.month
  | 'Y' => pad4 dt.year
  | 'H' => pad2 dt.hour
  | 'M' => pad2 dt.minute
  | 'S' => pad2 dt.second
  | c => String.mk ['%', c]

/-- Interpreter for a strftime format character list: percent introduces a
directive, every other character is literal. -/
def strftimeGo (dt : PyDateTime) : List Char → String
  | [] => ""
  | '%' :: c :: rest => strftimeDirective dt c ++ strftimeGo dt rest
  | c :: rest => String.singleton c ++ strftimeGo dt rest

/-- Model of datetime.strftime restricted to the directives this code base
uses. -/
def strftime (dt : PyDateTime) (fmt : String) : String :=
  strftimeGo dt fmt.data

/-! ## ZKI (model of src/fiskalhr/zki.py) -/

/-- Lowercase hexadecimal character test, the class 0-9 a-f of the ZKI
format pattern. -/
def isHexLowerChar (c : Char) : Bool :=
  c.isDigit || ('a' ≤ c && c ≤ 'f')

/-- ZKI value object. -/
structure ZKI where
  value : String
deriving DecidableEq, Repr

/-- Model of the ZKI constructor: accept exactly 32 lowercase hexadecimal
characters, otherwise a format ValueError. -/
def ZKI.init (val : String) : Except String ZKI :=
  if val.data.length == 32 && val.data.all isHexLowerChar then .ok ⟨val⟩
  else .error "Incorrect ZKI format"

/-- Model of ZKI.__str__. -/
def ZKI.str (z : ZKI) : String :=
  z.value

/-- The payload string built inside ZKI.calculate: the join, with no
separator, of the OIB string, the timestamp under the format d dot m dot Y
space H colon M colon S, the sequence number, the location code, the device
number, and the amount string. -/
def ZKI.calculatePayload (oib : OIB) (dt : PyDateTime) (invoice_number : InvoiceNumber)
    (amountCents : Int) : String :=
  String.join
    [ oib.value,
      strftime dt "%d.%m.%Y %H:%M:%S",
      natStr invoice_number.sequence_number,
      invoice_number.location_code,
      natStr invoice_number.device_number,
      decimal2str amountCents ]

/-- Model of ZKI.calculate: build the payload, sign it with the raw payload
signing operation of the signer, and wrap the result through the ZKI
constructor. The signer is the sign_zki_payload operation, a pure function
of the payload for a fixed key. -/
def ZKI.calculate (oib : OIB) (dt : PyDateTime) (invoice_number : InvoiceNumber)
    (amountCents : Int) (signer : String → String) : Except String ZKI :=
  ZKI.init (signer (ZKI.calculatePayload oib dt invoice_number amountCents))

/-! ## Byte-level primitives used by the signer model

The Python signer (src/fiskalhr/signature.py, sign_zki_payload) calls into
the cryptography and hashlib libraries. Those libraries are modelled here by
executable reference implementations of the standard algorithms they name:
UTF-8 encoding, MD5 (RFC 1321), SHA-1 (RFC 3174), and RSASSA-PKCS1-v1_5
signing with SHA-1. Bytes are Nat values below 256 and 32-bit words are Nat
values reduced modulo 2 ^ 32. -/

/-- UTF-8 encoding of one character (the standard one-to-four byte form). -/
def utf8EncodeChar (c : Char) : List Nat :=
  let n := c.toNat
  if n < 128 then [n]
  else if n < 2048 then [192 + n / 64, 128 + n % 64]
  else if n < 65536 then [224 + n / 4096, 128 + n / 64 % 64, 128 + n % 64]
  else [240 + n / 262144, 128 + n / 4096 % 64, 128 + n / 64 % 64, 128 + n % 64]

/-- Model of Python str.encode with the utf-8 codec. -/
def utf8Encode (s : String) : List Nat :=
  s.data.flatMap utf8EncodeChar

/-- Lowercase hexadecimal digit character. Values up to nine map to decimal
digit characters, ten to fifteen map to the letters a to f; larger inputs
map to f, but all call sites pass values reduced modulo sixteen. -/
def hexDigitChar (n : Nat) : Char :=
  if n < 10 then digitChar n
  else if n = 10 then 'a' else if n = 11 then 'b' else if n = 12 then 'c'
  else if n = 13 then 'd' else if n = 14 then 'e' else 'f'

/-- Word size modulus for 32-bit arithmetic. -/
def M32 : Nat := 4294967296

/-- Addition modulo 2 ^ 32. -/
def add32 (a b : Nat) : Nat := (a + b) % M32

/-- Bitwise complement on 32 bits. -/
def not32 (x : Nat) : Nat := Nat.xor x (M32 - 1)

/-- Rotate a 32-bit word left by s bits. -/
def rotl32 (x s : Nat) : Nat :=
  Nat.lor (Nat.shiftLeft x s % M32) (Nat.shiftRight (x % M32) (32 - s))

/-- Little-endian four-byte serialization of a 32-bit word. -/
def leBytes4 (x : Nat) : List Nat :=
  [x % 256, x / 256 % 256, x / 65536 % 256, x / 16777216 % 256]

/-- Little-endian eight-byte serialization of a 64-bit value. -/
def leBytes8 (x : Nat) : List Nat :=
  leBytes4 (x % M32) ++ leBytes4 (x / M32)

/-- Big-endian four-byte serialization of a 32-bit word. -/
def beBytes4 (x : Nat) : List Nat :=
  [x / 16777216 % 256, x / 65536 % 256, x / 256 % 256, x % 256]

/-- Big-endian eight-byte serialization of a 64-bit value. -/
def beBytes8 (x : Nat) : List Nat :=
  beBytes4 (x / M32) ++ beBytes4 (x % M32)

/-- Fuel-driven split of a byte list into 64-byte blocks; fuel of the list
length plus one always suffices. -/
def chunks64Go : Nat → List Nat → List (List Nat)
  | 0, _ => []
  | fuel + 1, l =>
    match l with
    | [] => []
    | l => l.take 64 :: chunks64Go fuel (l.drop 64)

/-- Split a byte list into 64-byte blocks. -/
def chunks64 (l : List Nat) : List (List Nat) :=
  chunks64Go (l.length + 1) l

/-- Merkle-Damgard padding shared by MD5 and SHA-1: append the byte 128,
then zeros up to 56 modulo 64, then the bit length on eight bytes (little
endian for MD5, big endian for SHA-1, selected by the argument). -/
def mdPad (littleEndianLen : Bool) (msg : List Nat) : List Nat :=
  let padLen := (119 - msg.length % 64) % 64
  let bitLen := (8 * msg.length) % 18446744073709551616
  msg ++ 128 :: List.replicate padLen 0
    ++ (if littleEndianLen then leBytes8 bitLen else beBytes8 bitLen)

/-- Little-endian 32-bit word at word index j of a 64-byte block. -/
def leWord (block : List Nat) (j : Nat) : Nat :=
  block.getD (4 * j) 0 + 256 * block.getD (4 * j + 1) 0
    + 65536 * block.getD (4 * j + 2) 0 + 16777216 * block.getD (4 * j + 3) 0

/-- The 64 MD5 sine-derived constants (RFC 1321). -/
def md5K : List Nat :=
  [ 0xd76aa478, 0xe8c7b756, 0x242070db, 0xc1bdceee,
    0xf57c0faf, 0x4787c62a, 0xa8304613, 0xfd469501,
    0x698098d8, 0x8b44f7af, 0xffff5bb1, 0x895cd7be,
    0x6b901122, 0xfd987193, 0xa679438e, 0x49b40821,
    0xf61e2562, 0xc040b340, 0x265e5a51, 0xe9b6c7aa,
    0xd62f105d, 0x02441453, 0xd8a1e681, 0xe7d3fbc8,
    0x21e1cde6, 0xc33707d6, 0xf4d50d87, 0x455a14ed,
    0xa9e3e905, 0xfcefa3f8, 0x676f02d9, 0x8d2a4c8a,
    0xfffa3942, 0x8771f681, 0x6d9d6122, 0xfde5380c,
    0xa4beea44, 0x4bdecfa9, 0xf6bb4b60, 0xbebfbc70,
    0x289b7ec6, 0xeaa127fa, 0xd4ef3085, 0x04881d05,
    0xd9d4d039, 0xe6db99e5, 0x1fa27cf8, 0xc4ac5665,
    0xf4292244, 0x432aff97, 0xab9423a7, 0xfc93a039,
    0x655b59c3, 0x8f0ccc92, 0xffeff47d, 0x85845dd1,
    0x6fa87e4f, 0xfe2ce6e0, 0xa3014314, 0x4e0811a1,
    0xf7537e82, 0xbd3af235, 0x2ad7d2bb, 0xeb86d391 ]

/-- The 64 MD5 per-round left-rotation amounts. -/
def md5S : List Nat :=
  [ 7, 12, 17, 22, 7, 12, 17, 22, 7, 12, 17, 22, 7, 12, 17, 22,
    5, 9, 14, 20, 5, 9, 14, 20, 5, 9, 14, 20, 5, 9, 14, 20,
    4, 11, 16, 23, 4, 11, 16, 23, 4, 11, 16, 23, 4, 11, 16, 23,
    6, 10, 15, 21, 6, 10, 15, 21, 6, 10, 15, 21, 6, 10, 15, 21 ]

/-- One MD5 step at round index i on the state quadruple. -/
def md5Step (block : List Nat) (st : Nat × Nat × Nat × Nat) (i : Nat) :
    Nat × Nat × Nat × Nat :=
  let (a, b, c, d) := st
  let fg : Nat × Nat :=
    if i < 16 then (Nat.lor (Nat.land b c) (Nat.land (not32 b) d), i)
    else if i < 32 then (Nat.lor (Nat.land d b) (Nat.land (not32 d) c), (5 * i + 1) % 16)
    else if i < 48 then (Nat.xor b (Nat.xor c d), (3 * i + 5) % 16)
    else (Nat.xor c (Nat.lor b (not32 d)), 7 * i % 16)
  let f := add32 (add32 (add32 fg.1 a) (md5K.getD i 0)) (leWord block fg.2)
  (d, add32 b (rotl32 f (md5S.getD i 0)), b, c)

/-- MD5 compression of one 64-byte block into the running state. -/
def md5Block (st : Nat × Nat × Nat × Nat) (block : List Nat) :
    Nat × Nat × Nat × Nat :=
  let (a0, b0, c0, d0) := st
  let (a, b, c, d) := (List.range 64).foldl (md5Step block) (a0, b0, c0, d0)
  (add32 a0 a, add32 b0 b, add32 c0 c, add32 d0 d)

/-- MD5 digest of a byte list: sixteen bytes (RFC 1321). -/
def md5 (msg : List Nat) : List Nat :=
  let st := (chunks64 (mdPad true msg)).foldl md5Block
    (0x67452301, 0xefcdab89, 0x98badcfe, 0x10325476)
  leBytes4 st.1 ++ leBytes4 st.2.1 ++ leBytes4 st.2.2.1 ++ leBytes4 st.2.2.2

/-- Two lowercase hexadecimal characters for one byte. -/
def byteToHexChars (b : Nat) : List Char :=
  [hexDigitChar (b / 16 % 16), hexDigitChar (b % 16)]

/-- Model of the hexdigest method of a hashlib digest object: lowercase
hexadecimal rendering of the digest bytes. -/
def hexDigest (bytes : List Nat) : String :=
  String.mk (bytes.flatMap byteToHexChars)

/-! ## SHA-1 (RFC 3174), used inside the RSA signature -/

/-- Big-endian 32-bit word at word index j of a 64-byte block. -/
def beWord (block : List Nat) (j : Nat) : Nat :=
  16777216 * block.getD (4 * j) 0 + 65536 * block.getD (4 * j + 1) 0
    + 256 * block.getD (4 * j + 2) 0 + block.getD (4 * j + 3) 0

/-- SHA-1 message schedule: extend the sixteen block words to eighty words. -/
def sha1Schedule (block : List Nat) : List Nat :=
  (List.range 80).foldl
    (fun w i =>
      if i < 16 then w ++ [beWord block i]
      else w ++ [rotl32 (Nat.xor (w.getD (i - 3) 0) (Nat.xor (w.getD (i - 8) 0)
        (Nat.xor (w.getD (i - 14) 0) (w.getD (i - 16) 0)))) 1])
    []

/-- One SHA-1 round at index i on the five-word state. -/
def sha1Step (w : List Nat) (st : Nat × Nat × Nat × Nat × Nat) (i : Nat) :
    Nat × Nat × Nat × Nat × Nat :=
  let (a, b, c, d, e) := st
  let fk : Nat × Nat :=
    if i < 20 then (Nat.lor (Nat.land b c) (Nat.land (not32 b) d), 0x5a827999)
    else if i < 40 then (Nat.xor b (Nat.xor c d), 0x6ed9eba1)
    else if i < 60 then
      (Nat.lor (Nat.lor (Nat.land b c) (Nat.land b d)) (Nat.land c d), 0x8f1bbcdc)
    else (Nat.xor b (Nat.xor c d), 0xca62c1d6)
  let t := add32 (add32 (add32 (add32 (rotl32 a 5) fk.1) e) fk.2) (w.getD i 0)
  (t, a, rotl32 b 30, c, d)

/-- SHA-1 compression of one 64-byte block into the running state. -/
def sha1Block (st : Nat × Nat × Nat × Nat × Nat) (block : List Nat) :
    Nat × Nat × Nat × Nat × Nat :=
  let (h0, h1, h2, h3, h4) := st
  let (a, b, c, d, e) := (List.range 80).foldl (sha1Step (sha1Schedule block))
    (h0, h1, h2, h3, h4)
  (add32 h0 a, add32 h1 b, add32 h2 c, add32 h3 d, add32 h4 e)

/-- SHA-1 digest of a byte list: twenty bytes (RFC 3174). -/
def sha1 (msg : List Nat) : List Nat :=
  let st := (chunks64 (mdPad false msg)).foldl sha1Block
    (0x67452301, 0xefcdab89, 0x98badcfe, 0x10325476, 0xc3d2e1f0)
  beBytes4 st.1 ++ beBytes4 st.2.1 ++ beBytes4 st.2.2.1
    ++ beBytes4 st.2.2.2.1 ++ beBytes4 st.2.2.2.2

/-! ## RSASSA-PKCS1-v1_5 signing with SHA-1 (the cryptography library call
in Signer.sign_zki_payload) -/

/-- Fuel-driven byte length of a nonnegative integer. -/
def byteLengthGo : Nat → Nat → Nat
  | 0, _ => 0
  | fuel + 1, n => if n = 0 then 0 else byteLengthGo fuel (n / 256) + 1

/-- Number of bytes in the big-endian representation of n. -/
def byteLength (n : Nat) : Nat :=
  byteLengthGo (n + 1) n

/-- Fuel-driven modular exponentiation by halving the exponent. -/
def powModGo : Nat → Nat → Nat → Nat → Nat
  | 0, _, _, m => 1 % m
  | fuel + 1, b, e, m =>
    if e = 0 then 1 % m
    else
      let h := powModGo fuel b (e / 2) m
      if e % 2 = 0 then h * h % m else h * h % m * b % m

/-- Modular exponentiation b ^ e mod m. -/
def powMod (b e m : Nat) : Nat :=
  powModGo (e + 1) b e m

/-- Big-endian integer value of a byte list (OS2IP of RFC 8017). -/
def os2ip (bytes : List Nat) : Nat :=
  bytes.foldl (fun acc b => acc * 256 + b) 0

/-- Big-endian serialization of x on k bytes (I2OSP of RFC 8017). -/
def i2osp (x k : Nat) : List Nat :=
  (List.range k).map (fun i => x / 256 ^ (k - 1 - i) % 256)

/-- The DER DigestInfo prefix for a SHA-1 hash (RFC 8017, section 9.2). -/
def digestInfoSha1 : List Nat :=
  [0x30, 0x21, 0x30, 0x09, 0x06, 0x05, 0x2b, 0x0e, 0x03, 0x02,
   0x1a, 0x05, 0x00, 0x04, 0x14]

/-- EMSA-PKCS1-v1_5 encoding of a SHA-1 message hash on emLen bytes:
leading bytes zero and one, then 0xff padding, a zero separator, the
DigestInfo prefix and the hash. -/
def emsaPkcs1v15Sha1 (mHash : List Nat) (emLen : Nat) : List Nat :=
  let t := digestInfoSha1 ++ mHash
  [0, 1] ++ List.replicate (emLen - t.length - 3) 255 ++ [0] ++ t

/-- RSA private key for the model: the modulus and the private exponent.
The Python code loads this material from PEM files at startup. -/
structure RSAKey where
  n : Nat
  d : Nat
deriving DecidableEq, Repr

/-- Model of the cryptography library call
key.sign(data, padding.PKCS1v15(), hashes.SHA1()): hash the message with
SHA-1, apply the EMSA-PKCS1-v1_5 encoding at the modulus length, and
exponentiate with the private exponent. Deterministic by construction, as
PKCS1 v1.5 signature padding is. -/
def rsaSignSha1Pkcs1 (key : RSAKey) (msg : List Nat) : List Nat :=
  let k := byteLength key.n
  let em := emsaPkcs1v15Sha1 (sha1 msg) k
  i2osp (powMod (os2ip em) key.d key.n) k

/-- Model of Signer.sign_zki_payload (src/fiskalhr/signature.py): sign the
UTF-8 encoded payload with RSA over a SHA-1 digest and PKCS1 v1.5 padding,
then return the MD5 hex digest of the signature bytes. -/
def Signer.sign_zki_payload (key : RSAKey) (data : String) : String :=
  hexDigest (md5 (rsaSignSha1Pkcs1 key (utf8Encode data)))

/-! ## Response-code catalog (model of src/fiskalhr/enums.py) -/

/-- The fixed catalog of service response codes (ResponseErrorEnum). -/
inductive ResponseErrorEnum where
  | NO_ERROR
  | INVALID_XML
  | INVALID_CLIENT_CERTIFICATE
  | WRONG_CLIENT_CERTIFICATE_TYPE
  | INCORRECT_DIGITAL_SIGNATURE
  | OIB_MISMATCH
  | SERVER_ERROR
  | PAYMENT_METHOD_CHANGE_DATE_MISMATCH
  | PAYMENT_METHOD_CHANGE_DATA_DIFFERS_WITH_INVOICE
  | MESSAGE_DATETIME_OUT_OF_BOUNDS
  | INVOICE_DATETIME_OUT_OF_BOUNDS
  | INVOICE_ISSUED_AFTER_SENDING
  | INVALID_INVOICE_SEQUENCE_NUMBER
  | INVOICE_SEQUENCE_NUMBER_TOO_LARGE
  | INVOICE_VAT_RATE_UNKNOWN
  | VAT_BASE_GREATER_THAN_TOTAL
  | VAT_BASE_LESS_THAN_THAN_TOTAL
  | VAT_SIGN_MISMATCH
  | VAT_AMOUNT_LESS_THAN_CALCULATED
  | VAT_AMOUNT_GREATER_THAN_CALCULATED
  | CTAX_RATE_NEGATIVE
  | CTAX_RATE_TOO_LARGE
  | CTAX_BASE_GREATER_THAN_CALCULATED
  | CTAX_BASE_LESS_THAN_CALCULATED
  | CTAX_SIGN_MISMATCH
  | CTAX_AMOUNT_LESS_THAN_CALCULATED
  | CTAX_AMOUNT_GREATER_THAN_CALCULATED
  | OTHER_TAX_INCLUDED
  | VAT_EXEMPT_AMOUNT_GREATER_THAN_TOTAL
  | VAT_EXEMPT_AMOUNT_LESS_THAN_TOTAL
  | VAT_EXEMPT_SIGN_MISMATCH
  | MARGIN_TAXATION_AMOUNT_GREATER_THAN_TOTAL
  | MARGIN_TAXATION_AMOUNT_LESS_THAN_TOTAL
  | MARGIN_TAXATION_SIGN_MISMATCH
  | TAX_EXEMPT_TOTAL_GREATER_THAN_TOTAL
  | TAX_EXEMPT_TOTAL_LESS_THAN_TOTAL
  | TAX_EXEMPT_TOTAL_SIGN_MISMATCH
  | FEE_TOO_LARGE
  | FEE_TOO_SMALL
  | TOTAL_AMOUNT_DIFFERS_FROM_CALCULATED
  | WIRE_TOTAL_AMOUNT_TOO_LARGE
  | SPECIFIC_PURPOSE_NOT_EMPTY
  | NONZERO_VAT
  | NONZERO_VAT_EXEMPT
  | NONZERO_MARGIN_TAXATION
  | NONZERO_TAX_EXEMPT_TOTAL
  | CASH_TOTAL_AMOUNT_TOO_LARGE
  | LATE_INVOICE2
  | LATE_INVOICE5
deriving DecidableEq, Repr

/-- The code string of each catalog member (the enum value in the source). -/
def ResponseErrorEnum.value : ResponseErrorEnum → String
  | .NO_ERROR => "v100"
  | .INVALID_XML => "s001"
  | .INVALID_CLIENT_CERTIFICATE => "s002"
  | .WRONG_CLIENT_CERTIFICATE_TYPE => "s003"
  | .INCORRECT_DIGITAL_SIGNATURE => "s004"
  | .OIB_MISMATCH => "s005"
  | .SERVER_ERROR => "s006"
  | .PAYMENT_METHOD_CHANGE_DATE_MISMATCH => "s007"
  | .PAYMENT_METHOD_CHANGE_DATA_DIFFERS_WITH_INVOICE => "s008"
  | .MESSAGE_DATETIME_OUT_OF_BOUNDS => "v101"
  | .INVOICE_DATETIME_OUT_OF_BOUNDS => "v103"
  | .INVOICE_ISSUED_AFTER_SENDING => "v104"
  | .INVALID_INVOICE_SEQUENCE_NUMBER => "v105"
  | .INVOICE_SEQUENCE_NUMBER_TOO_LARGE => "v106"
  | .INVOICE_VAT_RATE_UNKNOWN => "v110"
  | .VAT_BASE_GREATER_THAN_TOTAL => "v112"
  | .VAT_BASE_LESS_THAN_THAN_TOTAL => "v113"
  | .VAT_SIGN_MISMATCH => "v114"
  | .VAT_AMOUNT_LESS_THAN_CALCULATED => "v115"
  | .VAT_AMOUNT_GREATER_THAN_CALCULATED => "v116"
  | .CTAX_RATE_NEGATIVE => "v117"
  | .CTAX_RATE_TOO_LARGE => "v118"
  | .CTAX_BASE_GREATER_THAN_CALCULATED => "v120"
  | .CTAX_BASE_LESS_THAN_CALCULATED => "v121"
  | .CTAX_SIGN_MISMATCH => "v122"
  | .CTAX_AMOUNT_LESS_THAN_CALCULATED => "v123"
  | .CTAX_AMOUNT_GREATER_THAN_CALCULATED => "v124"
  | .OTHER_TAX_INCLUDED => "v125"
  | .VAT_EXEMPT_AMOUNT_GREATER_THAN_TOTAL => "v126"
  | .VAT_EXEMPT_AMOUNT_LESS_THAN_TOTAL => "v127"
  | .VAT_EXEMPT_SIGN_MISMATCH => "v128"
  | .MARGIN_TAXATION_AMOUNT_GREATER_THAN_TOTAL => "v129"
  | .MARGIN_TAXATION_AMOUNT_LESS_THAN_TOTAL => "v130"
  | .MARGIN_TAXATION_SIGN_MISMATCH => "v131"
  | .TAX_EXEMPT_TOTAL_GREATER_THAN_TOTAL => "v132"
  | .TAX_EXEMPT_TOTAL_LESS_THAN_TOTAL => "v133"
  | .TAX_EXEMPT_TOTAL_SIGN_MISMATCH => "v134"
  | .FEE_TOO_LARGE => "v135"
  | .FEE_TOO_SMALL => "v136"
  | .TOTAL_AMOUNT_DIFFERS_FROM_CALCULATED => "v137"
  | .WIRE_TOTAL_AMOUNT_TOO_LARGE => "v139"
  | .SPECIFIC_PURPOSE_NOT_EMPTY => "v141"
  | .NONZERO_VAT => "v142"
  | .NONZERO_VAT_EXEMPT => "v143"
  | .NONZERO_MARGIN_TAXATION => "v144"
  | .NONZERO_TAX_EXEMPT_TOTAL => "v145"
  | .CASH_TOTAL_AMOUNT_TOO_LARGE => "v148"
  | .LATE_INVOICE2 => "v152"
  | .LATE_INVOICE5 => "v153"

/-- Members of the catalog in declaration order (iteration order of the
Python enum class, used to build the code map in from_code). -/
def ResponseErrorEnum.members : List ResponseErrorEnum :=
  [ .NO_ERROR, .INVALID_XML, .INVALID_CLIENT_CERTIFICATE,
    .WRONG_CLIENT_CERTIFICATE_TYPE, .INCORRECT_DIGITAL_SIGNATURE,
    .OIB_MISMATCH, .SERVER_ERROR, .PAYMENT_METHOD_CHANGE_DATE_MISMATCH,
    .PAYMENT_METHOD_CHANGE_DATA_DIFFERS_WITH_INVOICE,
    .MESSAGE_DATETIME_OUT_OF_BOUNDS, .INVOICE_DATETIME_OUT_OF_BOUNDS,
    .INVOICE_ISSUED_AFTER_SENDING, .INVALID_INVOICE_SEQUENCE_NUMBER,
    .INVOICE_SEQUENCE_NUMBER_TOO_LARGE, .INVOICE_VAT_RATE_UNKNOWN,
    .VAT_BASE_GREATER_THAN_TOTAL, .VAT_BASE_LESS_THAN_THAN_TOTAL,
    .VAT_SIGN_MISMATCH, .VAT_AMOUNT_LESS_THAN_CALCULATED,
    .VAT_AMOUNT_GREATER_THAN_CALCULATED, .CTAX_RATE_NEGATIVE,
    .CTAX_RATE_TOO_LARGE, .CTAX_BASE_GREATER_THAN_CALCULATED,
    .CTAX_BASE_LESS_THAN_CALCULATED, .CTAX_SIGN_MISMATCH,
    .CTAX_AMOUNT_LESS_THAN_CALCULATED, .CTAX_AMOUNT_GREATER_THAN_CALCULATED,
    .OTHER_TAX_INCLUDED, .VAT_EXEMPT_AMOUNT_GREATER_THAN_TOTAL,
    .VAT_EXEMPT_AMOUNT_LESS_THAN_TOTAL, .VAT_EXEMPT_SIGN_MISMATCH,
    .MARGIN_TAXATION_AMOUNT_GREATER_THAN_TOTAL,
    .MARGIN_TAXATION_AMOUNT_LESS_THAN_TOTAL, .MARGIN_TAXATION_SIGN_MISMATCH,
    .TAX_EXEMPT_TOTAL_GREATER_THAN_TOTAL, .TAX_EXEMPT_TOTAL_LESS_THAN_TOTAL,
    .TAX_EXEMPT_TOTAL_SIGN_MISMATCH, .FEE_TOO_LARGE, .FEE_TOO_SMALL,
    .TOTAL_AMOUNT_DIFFERS_FROM_CALCULATED, .WIRE_TOTAL_AMOUNT_TOO_LARGE,
    .SPECIFIC_PURPOSE_NOT_EMPTY, .NONZERO_VAT, .NONZERO_VAT_EXEMPT,
    .NONZERO_MARGIN_TAXATION, .NONZERO_TAX_EXEMPT_TOTAL,
    .CASH_TOTAL_AMOUNT_TOO_LARGE, .LATE_INVOICE2, .LATE_INVOICE5 ]

/-- Model of ResponseErrorEnum.from_code: look the code string up in the
value-to-member map; an unrecognized code yields no member, exactly as the
get call on the Python dict returns None. -/
def ResponseErrorEnum.from_code (code : String) : Option ResponseErrorEnum :=
  ResponseErrorEnum.members.find? (fun e => e.value == code)

/-! ## Fault decoding (model of src/fiskalhr/errors.py) -/

/-- One entry of the error list in a fault body, with the wire field names
used by the service schema: the code string and the message string. -/
structure GreskaEntry where
  SifraGreske : String
  PorukaGreske : String
deriving DecidableEq, Repr

/-- Structured error detail (ResponseErrorDetail): the catalog member
looked up from the entry code, or none for an unrecognized code, plus the
message from the entry. -/
structure ResponseErrorDetail where
  code : Option ResponseErrorEnum
  message : String
deriving DecidableEq, Repr

/-- Model of ResponseErrorDetail.__str__: code dot value, colon, space,
message. On a detail whose code is none the Python attribute access on
None raises, so the model returns none there. -/
def ResponseErrorDetail.str (d : ResponseErrorDetail) : Option String :=
  d.code.map (fun e => e.value ++ ": " ++ d.message)

/-- Model of ResponseErrorDetail.parse_response: one structured detail per
entry of the fault body error list, in order, except that entries whose
code string equals the NO_ERROR sentinel value are skipped. -/
def ResponseErrorDetail.parse_response :
    List GreskaEntry → List ResponseErrorDetail
  | [] => []
  | item :: rest =>
    if item.SifraGreske == ResponseErrorEnum.NO_ERROR.value then
      ResponseErrorDetail.parse_response rest
    else
      ⟨ResponseErrorEnum.from_code item.SifraGreske, item.PorukaGreske⟩
        :: ResponseErrorDetail.parse_response rest

/-- Aggregate service error (ResponseError): the fixed generic message and
the decoded detail list. -/
structure ResponseError where
  message : String
  details : List ResponseErrorDetail
deriving DecidableEq, Repr

/-- Model of the ResponseError constructor: the message is always the
generic service error text. -/
def ResponseError.init (details : List ResponseErrorDetail) : ResponseError :=
  ⟨"Service error", details⟩

/-- Model of ResponseError.from_fault_response: decode the fault body error
list and wrap it. -/
def ResponseError.from_fault_response (entries : List GreskaEntry) : ResponseError :=
  ResponseError.init (ResponseErrorDetail.parse_response entries)

/-! ## Protocol client fault normalization (model of
FiskalClient._call_service, src/fiskalhr/ws.py) -/

/-- Outcome of parsing the detail payload of a transport-level fault, the
three branches the code distinguishes: the XML parser raises a syntax
error, the parsed document has no body element, or a body was found and
deserialized into a fault response with its error entries. -/
inductive FaultDetailCase where
  | malformedXml
  | parsedWithoutBody
  | parsedWithBody (entries : List GreskaEntry)
deriving DecidableEq, Repr

/-- Outcome of invoking the transport service proxy: a successful response
or a raised fault carrying a detail payload. -/
inductive ServiceOutcome (α : Type) where
  | success (response : α)
  | fault (detail : FaultDetailCase)
deriving DecidableEq, Repr

/-- Model of FiskalClient._call_service: pass a successful response
through; on a fault, re-raise as a ResponseError, with an empty detail
list when the fault detail is unparsable XML or has no recognizable body,
and with the decoded detail list when the body was deserialized. -/
def FiskalClient.callService {α : Type} :
    ServiceOutcome α → Except ResponseError α
  | .success r => .ok r
  | .fault .malformedXml => .error (ResponseError.init [])
  | .fault .parsedWithoutBody => .error (ResponseError.init [])
  | .fault (.parsedWithBody entries) =>
      .error (ResponseError.from_fault_response entries)

/-! ## InvoiceWithDoc accompanying-document element (model of
InvoiceWithDoc.to_ws_object, src/fiskalhr/invoice.py) -/

/-- The alternative field emitted inside the accompanying-document element:
either the reference id of the supporting document or its tamper code. -/
inductive PrateciDokumentField where
  | JirPD (jir : String)
  | ZastKodPD (zki : ZKI)
deriving DecidableEq, Repr

/-- Python truthiness of an optional string attribute: present and
nonempty. -/
def truthyOptStr : Option String → Bool
  | some s => !(s == "")
  | none => false

/-- Model of the accompanying-document part of InvoiceWithDoc.to_ws_object:
if the document_jir attribute is truthy emit JirPD with it, otherwise if
the document_zki attribute is set emit ZastKodPD with it, otherwise raise.
A ZKI object is always truthy since ZKI defines no falsiness hook. -/
def InvoiceWithDoc.buildPrateciDokument (document_jir : Option String)
    (document_zki : Option ZKI) : Except String PrateciDokumentField :=
  if truthyOptStr document_jir then
    .ok (.JirPD (document_jir.getD ""))
  else
    match document_zki with
    | some z => .ok (.ZastKodPD z)
    | none => .error "Either document_jir or document_zki must be set"

/-! ## Verification QR link (model of Invoice.get_qr_link,
src/fiskalhr/invoice.py) -/

/-- Truncation of a rational toward zero, the conversion Python int applies
to a Decimal. -/
def ratTrunc (q : Rat) : Int :=
  if 0 ≤ q then ratFloor q else -ratFloor (-q)

/-- Uppercase hexadecimal digit character for percent escapes. -/
def hexDigitUpper (n : Nat) : Char :=
  if n < 10 then digitChar n
  else if n = 10 then 'A' else if n = 11 then 'B' else if n = 12 then 'C'
  else if n = 13 then 'D' else if n = 14 then 'E' else 'F'

/-- The byte values quote_plus never escapes: ASCII letters, digits, and
underscore, dot, hyphen, tilde. -/
def urlSafeByte (b : Nat) : Bool :=
  (48 ≤ b && b ≤ 57) || (65 ≤ b && b ≤ 90) || (97 ≤ b && b ≤ 122)
    || b == 95 || b == 46 || b == 45 || b == 126

/-- Encoding of one UTF-8 byte under quote_plus: space to plus, safe bytes
kept, everything else percent-escaped with uppercase hexadecimal. -/
def quotePlusByte (b : Nat) : List Char :=
  if b == 32 then ['+']
  else if urlSafeByte b then [Char.ofNat b]
  else ['%', hexDigitUpper (b / 16 % 16), hexDigitUpper (b % 16)]

/-- Model of urllib quote_plus on a string (the default quoting applied by
urlencode to every key and value). -/
def quotePlus (s : String) : String :=
  String.mk ((utf8Encode s).flatMap quotePlusByte)

/-- Model of urllib urlencode on an ordered parameter list: key equals
value pairs quoted with quote_plus and joined with ampersands. -/
def urlencode : List (String × String) → String
  | [] => ""
  | [p] => quotePlus p.1 ++ "=" ++ quotePlus p.2
  | p :: ps => quotePlus p.1 ++ "=" ++ quotePlus p.2 ++ "&" ++ urlencode ps

/-- The base URL of the invoice verification service. -/
def BASE_INVOICE_QR_CHECK_URL : String := "https://porezna.gov.hr/rn"

/-- Model of Invoice.get_qr_link. The total is the two-decimal fixed-point
amount required on the invoice, given as an integer count of hundredths;
izn is one hundred twenty three times the total truncated to an integer,
datv the timestamp in compact form, and then the confirmation id when one
is supplied (truthy), else the computed tamper code. -/
def Invoice.get_qr_link (totalCents : Int) (issued_at : PyDateTime) (zki : ZKI)
    (jir : Option String) : String :=
  let params := [("izn", intStr (ratTrunc (123 * (totalCents : Rat) / 100))),
                 ("datv", strftime issued_at "%Y%m%d_%H%M")]
  let params := if truthyOptStr jir
    then params ++ [("jir", jir.getD "")]
    else params ++ [("zki", zki.value)]
  BASE_INVOICE_QR_CHECK_URL ++ "?" ++ urlencode params

/-! ## Helper lemmas -/

/-- Decidable equality on Except values, used to evaluate the models on
concrete inputs. -/
instance {ε α : Type} [DecidableEq ε] [DecidableEq α] : DecidableEq (Except ε α) :=
  fun x y =>
    match x, y with
    | .ok a, .ok b =>
      if h : a = b then .isTrue (by rw [h]) else .isFalse (by intro he; cases he; exact h rfl)
    | .error a, .error b =>
      if h : a = b then .isTrue (by rw [h]) else .isFalse (by intro he; cases he; exact h rfl)
    | .ok _, .error _ => .isFalse (by intro he; cases he)
    | .error _, .ok _ => .isFalse (by intro he; cases he)

theorem ratFloor_intCast (n : Int) : ratFloor (n : Rat) = n := by
  unfold ratFloor
  rw [Rat.num_intCast, Rat.den_intCast]
  exact_mod_cast Int.fdiv_one n

theorem roundHalfEven_intCast (n : Int) : roundHalfEven (n : Rat) = n := by
  unfold roundHalfEven
  rw [ratFloor_intCast]
  norm_num

theorem to_decimal2_intCast (n : Int) : to_decimal2 (n : Rat) = (n : Rat) := by
  unfold to_decimal2
  have h : (100 : Rat) * (n : Rat) = ((100 * n : Int) : Rat) := by push_cast; ring
  rw [h, roundHalfEven_intCast]
  push_cast
  field_simp

theorem checksumSpecAcc_eq_foldl (ds : List Nat) (acc : Nat) :
    checksumSpecAcc acc ds = ds.foldl checksumStep acc := by
  induction ds generalizing acc with
  | nil => rfl
  | cons d ds ih =>
    simp only [checksumSpecAcc, List.foldl_cons, checksumStep]
    exact ih _

theorem calcChecksum_eq_spec (val : List Char) :
    OIB.calcChecksum val = checksumSpec ((val.take 10).map digitVal) := by
  simp only [OIB.calcChecksum, checksumSpec, checksumSpecAcc_eq_foldl, List.foldl_map]

/-! ## Claim C3: OIB validation -/

/-- Claim C3: identity-code validation succeeds exactly on strings of
eleven ASCII digits whose eleventh digit equals the checksum recurrence
over the first ten (acc starts at 10; acc becomes (d + acc) mod 10, a zero
is replaced by ten, then acc is doubled modulo eleven; expected digit is
(11 - acc) mod 10); "12312312316" is accepted and "12312312312" is
rejected; a non-eleven-digit string fails with the format error and a
wrong check digit with the mismatch error. -/
theorem C3_oib_validation :
    (∀ s : String, (OIB.init s).isOk = true ↔
      (s.data.length = 11 ∧ (∀ c ∈ s.data, c.isDigit = true) ∧
        digitVal (s.data.getD 10 '0') = checksumSpec ((s.data.take 10).map digitVal)))
    ∧ (∀ s : String, ¬(s.data.length = 11 ∧ ∀ c ∈ s.data, c.isDigit = true) →
        OIB.init s = .error .format)
    ∧ (∀ s : String, s.data.length = 11 → (∀ c ∈ s.data, c.isDigit = true) →
        digitVal (s.data.getD 10 '0') ≠ checksumSpec ((s.data.take 10).map digitVal) →
        OIB.init s = .error (.mismatch (s.data.getD 10 '0') (OIB.calcChecksum s.data)))
    ∧ (OIB.init "12312312316").isOk = true
    ∧ OIB.init "12312312312" = .error (.mismatch '2' 6) := by
  refine ⟨?_, ?_, ?_, by rfl, by rfl⟩
  · intro s
    rw [← calcChecksum_eq_spec]
    unfold OIB.init OIB.verify
    cases hb : (s.data.length == 11 && s.data.all Char.isDigit) with
    | false =>
      simp only [Bool.false_eq_true, if_false]
      constructor
      · intro hk; exact absurd hk (by simp [Except.isOk, Except.toBool])
      · rintro ⟨h1, h2, _⟩
        have ht : (s.data.length == 11 && s.data.all Char.isDigit) = true := by
          rw [Bool.and_eq_true, beq_iff_eq, List.all_eq_true]
          exact ⟨h1, fun c hc => h2 c hc⟩
        rw [hb] at ht
        cases ht
    | true =>
      rw [Bool.and_eq_true, beq_iff_eq, List.all_eq_true] at hb
      simp only [if_true]
      cases hne : (OIB.calcChecksum s.data != digitVal (s.data.getD 10 '0')) with
      | false =>
        rw [bne_eq_false_iff_eq] at hne
        simp only [Bool.false_eq_true, if_false, Except.isOk, Except.toBool]
        exact ⟨fun _ => ⟨hb.1, hb.2, hne.symm⟩, fun _ => trivial⟩
      | true =>
        rw [bne_iff_ne] at hne
        simp only [if_true, Except.isOk, Except.toBool]
        constructor
        · intro hk; exact absurd hk (by simp)
        · rintro ⟨_, _, h3⟩; exact absurd h3.symm hne
  · intro s hs
    unfold OIB.init OIB.verify
    have hb : (s.data.length == 11 && s.data.all Char.isDigit) = false := by
      cases hb : (s.data.length == 11 && s.data.all Char.isDigit) with
      | false => rfl
      | true =>
        rw [Bool.and_eq_true, beq_iff_eq, List.all_eq_true] at hb
        exact absurd ⟨hb.1, fun c hc => hb.2 c hc⟩ hs
    rw [hb]
    simp only [Bool.false_eq_true, if_false]
  · intro s h1 h2 h3
    rw [← calcChecksum_eq_spec] at h3
    unfold OIB.init OIB.verify
    have hb : (s.data.length == 11 && s.data.all Char.isDigit) = true := by
      rw [Bool.and_eq_true, beq_iff_eq, List.all_eq_true]
      exact ⟨h1, fun c hc => h2 c hc⟩
    rw [hb]
    have hne : (OIB.calcChecksum s.data != digitVal (s.data.getD 10 '0')) = true := by
      rw [bne_iff_ne]
      exact fun e => h3 e.symm
    rw [if_pos rfl, if_pos hne]

/-- Witness for C3 at concrete inputs: a ten-character string fails with
the format error. -/
theorem C3_oib_validation_witness :
    OIB.init "1231231231" = .error .format :=
  C3_oib_validation.2.1 "1231231231" (by decide)

/-! ## Claim C4: tax-line construction -/

/-- Claim C4: tax-line construction normalizes base, rate and amount to two
fractional digits and succeeds exactly when the normalized amount equals
base times rate over one hundred quantized to two fractional digits
(round half even, the Decimal default); (100, 20, 30) fails and
(100, 25, 25) succeeds. -/
theorem C4_tax_item :
    (∀ b r a : Rat, (TaxItem.init b r a).isOk = true ↔
        to_decimal2 a = to_decimal2 (to_decimal2 b * to_decimal2 r / 100))
    ∧ (∀ b r a t, TaxItem.init b r a = .ok t →
        t.base = to_decimal2 b ∧ t.rate = to_decimal2 r ∧ t.amount = to_decimal2 a
        ∧ (∃ n : Int, t.base = (n : Rat) / 100)
        ∧ (∃ n : Int, t.rate = (n : Rat) / 100)
        ∧ (∃ n : Int, t.amount = (n : Rat) / 100)
        ∧ t.amount = to_decimal2 (t.base * t.rate / 100))
    ∧ (TaxItem.init 100 20 30).isOk = false
    ∧ TaxItem.init 100 25 25 = .ok ⟨100, 25, 25⟩ := by
  have e100 : to_decimal2 (100 : Rat) = 100 := by exact_mod_cast to_decimal2_intCast 100
  have e20 : to_decimal2 (20 : Rat) = 20 := by exact_mod_cast to_decimal2_intCast 20
  have e25 : to_decimal2 (25 : Rat) = 25 := by exact_mod_cast to_decimal2_intCast 25
  have e30 : to_decimal2 (30 : Rat) = 30 := by exact_mod_cast to_decimal2_intCast 30
  have hfail : (TaxItem.init 100 20 30).isOk = false := by
    simp only [TaxItem.init]
    rw [e100, e20, e30]
    have h1 : (100 : Rat) * 20 / 100 = 20 := by norm_num
    rw [h1, e20, if_neg (by norm_num)]
    rfl
  have hok : TaxItem.init 100 25 25 = .ok ⟨100, 25, 25⟩ := by
    simp only [TaxItem.init]
    rw [e100, e25]
    have h1 : (100 : Rat) * 25 / 100 = 25 := by norm_num
    rw [h1, e25, if_pos rfl]
  refine ⟨?_, ?_, hfail, hok⟩
  · intro b r a
    simp only [TaxItem.init]
    by_cases h : to_decimal2 (to_decimal2 b * to_decimal2 r / 100) = to_decimal2 a
    · rw [if_pos h]
      simp only [Except.isOk, Except.toBool]
      exact ⟨fun _ => h.symm, fun _ => trivial⟩
    · rw [if_neg h]
      simp only [Except.isOk, Except.toBool]
      constructor
      · intro hk; exact absurd hk (by simp)
      · intro he; exact absurd he.symm h
  · intro b r a t h
    simp only [TaxItem.init] at h
    split at h
    · rename_i hc
      cases h
      exact ⟨rfl, rfl, rfl, ⟨_, rfl⟩, ⟨_, rfl⟩, ⟨_, rfl⟩, hc.symm⟩
    · cases h

/-- Witness for C4 at concrete inputs: (100, 25, 25) succeeds and the
stored item satisfies the stated normalization facts. -/
theorem C4_tax_item_witness :
    (⟨100, 25, 25⟩ : TaxItem).base = to_decimal2 100
      ∧ (⟨100, 25, 25⟩ : TaxItem).rate = to_decimal2 25
      ∧ (⟨100, 25, 25⟩ : TaxItem).amount = to_decimal2 25
      ∧ (∃ n : Int, (⟨100, 25, 25⟩ : TaxItem).base = (n : Rat) / 100)
      ∧ (∃ n : Int, (⟨100, 25, 25⟩ : TaxItem).rate = (n : Rat) / 100)
      ∧ (∃ n : Int, (⟨100, 25, 25⟩ : TaxItem).amount = (n : Rat) / 100)
      ∧ (⟨100, 25, 25⟩ : TaxItem).amount =
          to_decimal2 ((⟨100, 25, 25⟩ : TaxItem).base * (⟨100, 25, 25⟩ : TaxItem).rate / 100) :=
  C4_tax_item.2.1 100 25 25 ⟨100, 25, 25⟩ C4_tax_item.2.2.2

/-! ## Invoice-number parsing lemmas -/

theorem digit_ne_slash {c : Char} (h : c.isDigit = true) : c ≠ '/' := by
  intro he
  subst he
  exact absurd h (by decide)

theorem alnum_ne_slash {c : Char} (h : asciiAlnum c = true) : c ≠ '/' := by
  intro he
  subst he
  exact absurd h (by decide)

theorem splitSlash_ne_nil (l : List Char) : splitSlash l ≠ [] := by
  cases l with
  | nil => simp [splitSlash]
  | cons c rest =>
    simp only [splitSlash]
    cases splitSlash rest with
    | nil => simp
    | cons p ps =>
      by_cases hc : c = '/' <;> simp [hc]

theorem joinSlash_cons_cons (c : Char) (p : List Char) (ps : List (List Char)) :
    joinSlash ((c :: p) :: ps) = c :: joinSlash (p :: ps) := by
  cases ps <;> rfl

theorem splitSlash_cons_eq (c : Char) (rest p : List Char) (ps : List (List Char))
    (hsp : splitSlash rest = p :: ps) :
    splitSlash (c :: rest) = if c = '/' then [] :: p :: ps else (c :: p) :: ps := by
  show (match splitSlash rest with
    | [] => [[]]
    | p :: ps => if c = '/' then [] :: p :: ps else (c :: p) :: ps) = _
  rw [hsp]

theorem splitSlash_parts (l : List Char) :
    joinSlash (splitSlash l) = l ∧ ∀ p ∈ splitSlash l, '/' ∉ p := by
  induction l with
  | nil =>
    refine ⟨rfl, ?_⟩
    intro p hp
    simp only [splitSlash, List.mem_singleton] at hp
    subst hp
    simp
  | cons c rest ih =>
    obtain ⟨ih1, ih2⟩ := ih
    cases hsp : splitSlash rest with
    | nil => exact absurd hsp (splitSlash_ne_nil rest)
    | cons p ps =>
      rw [hsp] at ih1 ih2
      by_cases hc : c = '/'
      · subst hc
        have hsc : splitSlash ('/' :: rest) = [] :: p :: ps := by
          rw [splitSlash_cons_eq _ _ _ _ hsp, if_pos rfl]
        constructor
        · rw [hsc]
          show [] ++ '/' :: joinSlash (p :: ps) = '/' :: rest
          rw [List.nil_append, ih1]
        · intro q hq
          rw [hsc] at hq
          rcases List.mem_cons.mp hq with hq | hq
          · subst hq; simp
          · exact ih2 q hq
      · have hsc : splitSlash (c :: rest) = (c :: p) :: ps := by
          rw [splitSlash_cons_eq _ _ _ _ hsp, if_neg hc]
        constructor
        · rw [hsc, joinSlash_cons_cons, ih1]
        · intro q hq
          rw [hsc] at hq
          rcases List.mem_cons.mp hq with hq | hq
          · subst hq
            intro hm
            rcases List.mem_cons.mp hm with hm | hm
            · exact hc hm.symm
            · exact ih2 p (List.mem_cons_self p ps) hm
          · exact ih2 q (List.mem_cons_of_mem p hq)

theorem splitSlash_eq_three {l a b c : List Char} (h : splitSlash l = [a, b, c]) :
    l = a ++ '/' :: (b ++ '/' :: c) := by
  have hj := (splitSlash_parts l).1
  rw [h] at hj
  rw [← hj]
  show joinSlash [a, b, c] = a ++ '/' :: (b ++ '/' :: c)
  show a ++ '/' :: joinSlash [b, c] = a ++ '/' :: (b ++ '/' :: c)
  rfl

theorem splitSlash_no_slash {l : List Char} (h : '/' ∉ l) : splitSlash l = [l] := by
  induction l with
  | nil => rfl
  | cons c rest ih =>
    simp only [List.mem_cons, not_or] at h
    rw [splitSlash_cons_eq _ _ _ _ (ih h.2), if_neg (fun e => h.1 e.symm)]

theorem splitSlash_append {a : List Char} (l : List Char) (h : '/' ∉ a) :
    splitSlash (a ++ '/' :: l) = a :: splitSlash l := by
  induction a with
  | nil =>
    rw [List.nil_append]
    cases hsp : splitSlash l with
    | nil => exact absurd hsp (splitSlash_ne_nil l)
    | cons p ps => rw [splitSlash_cons_eq _ _ _ _ hsp, if_pos rfl, ← hsp]
  | cons c a' ih =>
    simp only [List.mem_cons, not_or] at h
    cases hsp : splitSlash (a' ++ '/' :: l) with
    | nil => exact absurd hsp (splitSlash_ne_nil _)
    | cons p ps =>
      have hi := ih h.2
      rw [hsp] at hi
      cases hi
      rw [List.cons_append, splitSlash_cons_eq _ _ _ _ hsp,
        if_neg (fun e => h.1 e.symm)]

theorem all_no_slash {l : List Char} {p : Char → Bool}
    (hall : l.all p = true) (hp : ∀ c, p c = true → c ≠ '/') : '/' ∉ l := by
  intro hm
  exact hp '/' (List.all_eq_true.mp hall '/' hm) rfl

theorem InvoiceNumber.init_append_eq (a b c : List Char)
    (ha : a ≠ []) (hda : a.all Char.isDigit = true)
    (hb : b ≠ []) (hab : b.all asciiAlnum = true)
    (hc : c ≠ []) (hdc : c.all Char.isDigit = true) :
    InvoiceNumber.init ⟨a ++ '/' :: (b ++ '/' :: c)⟩ =
      .ok ⟨⟨a ++ '/' :: (b ++ '/' :: c)⟩, natOfDigits a, ⟨b⟩, natOfDigits c⟩ := by
  have hsa : '/' ∉ a := all_no_slash hda (fun _ h => digit_ne_slash h)
  have hsb : '/' ∉ b := all_no_slash hab (fun _ h => alnum_ne_slash h)
  have hsc : '/' ∉ c := all_no_slash hdc (fun _ h => digit_ne_slash h)
  have hsp : splitSlash (a ++ '/' :: (b ++ '/' :: c)) = [a, b, c] := by
    rw [splitSlash_append _ hsa, splitSlash_append _ hsb, splitSlash_no_slash hsc]
  show InvoiceNumber.init (String.mk (a ++ '/' :: (b ++ '/' :: c))) = _
  unfold InvoiceNumber.init
  simp only [hsp]
  rw [if_pos]
  simp only [Bool.and_eq_true, Bool.not_eq_true']
  refine ⟨⟨⟨⟨⟨?_, hda⟩, ?_⟩, hab⟩, ?_⟩, hdc⟩
  · cases a with
    | nil => exact absurd rfl ha
    | cons _ _ => rfl
  · cases b with
    | nil => exact absurd rfl hb
    | cons _ _ => rfl
  · cases c with
    | nil => exact absurd rfl hc
    | cons _ _ => rfl

theorem InvoiceNumber.init_ok_string {s : String} {x : InvoiceNumber}
    (h : InvoiceNumber.init s = .ok x) : x.invoice_number = s := by
  unfold InvoiceNumber.init at h
  split at h
  · split at h
    · cases h; rfl
    · cases h
  · cases h

theorem InvoiceNumber.init_ok_pattern {s : String} {x : InvoiceNumber}
    (h : InvoiceNumber.init s = .ok x) : InvoicePattern s := by
  unfold InvoiceNumber.init at h
  split at h
  · rename_i a b c heq
    split at h
    · rename_i hcond
      simp only [Bool.and_eq_true, Bool.not_eq_true'] at hcond
      obtain ⟨⟨⟨⟨⟨hea, hda⟩, heb⟩, hab⟩, hec⟩, hdc⟩ := hcond
      refine ⟨a, b, c, splitSlash_eq_three heq, ?_, hda, ?_, hab, ?_, hdc⟩
      · intro he; subst he; exact absurd hea (by decide)
      · intro he; subst he; exact absurd heb (by decide)
      · intro he; subst he; exact absurd hec (by decide)
    · cases h
  · cases h

theorem InvoiceNumber.pattern_init {s : String} (h : InvoicePattern s) :
    (InvoiceNumber.init s).isOk = true := by
  obtain ⟨a, b, c, hdec, ha, hda, hb, hab, hc, hdc⟩ := h
  have hs : s = ⟨a ++ '/' :: (b ++ '/' :: c)⟩ := by
    cases s
    simp only at hdec
    rw [hdec]
  rw [hs, InvoiceNumber.init_append_eq a b c ha hda hb hab hc hdc]
  rfl

/-! ## Claim C5: invoice-identifier parsing -/

/-- Claim C5: invoice-identifier parsing succeeds exactly when the whole
string matches digits slash alphanumerics slash digits, yielding the
sequence number, location code and device number; the parse of the stored
string form of any parsed identifier returns the identifier unchanged;
"1001/VP1/9" parses to (1001, VP1, 9) and restringifies identically; and
acceptance of the sequence segment does not depend on its length, so no
upper bound on the sequence-number magnitude is enforced. -/
theorem C5_invoice_number_parse :
    (∀ s : String, (InvoiceNumber.init s).isOk = true ↔ InvoicePattern s)
    ∧ (∀ a b c : List Char,
        a ≠ [] → a.all Char.isDigit = true → b ≠ [] → b.all asciiAlnum = true →
        c ≠ [] → c.all Char.isDigit = true →
        InvoiceNumber.init ⟨a ++ '/' :: (b ++ '/' :: c)⟩ =
          .ok ⟨⟨a ++ '/' :: (b ++ '/' :: c)⟩, natOfDigits a, ⟨b⟩, natOfDigits c⟩)
    ∧ (∀ (s : String) (x : InvoiceNumber), InvoiceNumber.init s = .ok x →
        InvoiceNumber.init x.str = .ok x)
    ∧ InvoiceNumber.init "1001/VP1/9" = .ok ⟨"1001/VP1/9", 1001, "VP1", 9⟩
    ∧ (∀ a : List Char, a ≠ [] → a.all Char.isDigit = true →
        (InvoiceNumber.init ⟨a ++ '/' :: (['X'] ++ '/' :: ['1'])⟩).isOk = true) := by
  refine ⟨?_, InvoiceNumber.init_append_eq, ?_, by rfl, ?_⟩
  · intro s
    constructor
    · intro hk
      cases hinit : InvoiceNumber.init s with
      | ok x => exact InvoiceNumber.init_ok_pattern hinit
      | error e => rw [hinit] at hk; exact absurd hk (by simp [Except.isOk, Except.toBool])
    · exact InvoiceNumber.pattern_init
  · intro s x h
    rw [InvoiceNumber.str, InvoiceNumber.init_ok_string h, h]
  · intro a ha hda
    have := InvoiceNumber.init_append_eq a ['X'] ['1'] ha hda
      (by decide) (by decide) (by decide) (by decide)
    rw [this]
    rfl

/-- Witness for C5 at concrete inputs: the round trip on "1001/VP1/9" and
the acceptance of a long sequence segment. -/
theorem C5_invoice_number_parse_witness :
    InvoiceNumber.init (InvoiceNumber.str ⟨"1001/VP1/9", 1001, "VP1", 9⟩) =
        .ok ⟨"1001/VP1/9", 1001, "VP1", 9⟩
    ∧ (InvoiceNumber.init ⟨['1', '2', '3', '4', '5', '6', '7', '8', '9', '0', '1']
          ++ '/' :: (['X'] ++ '/' :: ['1'])⟩).isOk = true :=
  ⟨C5_invoice_number_parse.2.2.1 "1001/VP1/9" ⟨"1001/VP1/9", 1001, "VP1", 9⟩
      C5_invoice_number_parse.2.2.2.1,
   C5_invoice_number_parse.2.2.2.2 ['1', '2', '3', '4', '5', '6', '7', '8', '9', '0', '1']
      (by decide) (by decide)⟩

/-! ## Claim C10: the identifier preserves the original string -/

/-- Claim C10: the invoice-identifier value object keeps the original input
string verbatim as its string form (leading zeros preserved) and equality
compares the stored strings, not the parsed triples; "1/X/1" and "01/X/1"
are both accepted, parse to the same numeric triple, yet compare unequal,
so the string-to-triple mapping is not injective while the string-level
round trip holds. -/
theorem C10_invoice_number_string_identity :
    (∀ (s : String) (x : InvoiceNumber), InvoiceNumber.init s = .ok x → x.str = s)
    ∧ (∀ x y : InvoiceNumber,
        InvoiceNumber.beq x y = (x.invoice_number == y.invoice_number))
    ∧ InvoiceNumber.init "1/X/1" = .ok ⟨"1/X/1", 1, "X", 1⟩
    ∧ InvoiceNumber.init "01/X/1" = .ok ⟨"01/X/1", 1, "X", 1⟩
    ∧ (⟨"1/X/1", 1, "X", 1⟩ : InvoiceNumber).sequence_number =
        (⟨"01/X/1", 1, "X", 1⟩ : InvoiceNumber).sequence_number
    ∧ (⟨"1/X/1", 1, "X", 1⟩ : InvoiceNumber).location_code =
        (⟨"01/X/1", 1, "X", 1⟩ : InvoiceNumber).location_code
    ∧ (⟨"1/X/1", 1, "X", 1⟩ : InvoiceNumber).device_number =
        (⟨"01/X/1", 1, "X", 1⟩ : InvoiceNumber).device_number
    ∧ InvoiceNumber.beq ⟨"1/X/1", 1, "X", 1⟩ ⟨"01/X/1", 1, "X", 1⟩ = false
    ∧ InvoiceNumber.str ⟨"01/X/1", 1, "X", 1⟩ = "01/X/1" := by
  refine ⟨?_, fun x y => rfl, by rfl, by rfl, rfl, rfl, rfl, by rfl, rfl⟩
  intro s x h
  exact InvoiceNumber.init_ok_string h

/-- Witness for C10 at concrete inputs: the parse of "01/X/1" stringifies
back to "01/X/1" with its leading zero. -/
theorem C10_invoice_number_string_identity_witness :
    InvoiceNumber.str ⟨"01/X/1", 1, "X", 1⟩ = "01/X/1" :=
  C10_invoice_number_string_identity.1 "01/X/1" ⟨"01/X/1", 1, "X", 1⟩
    C10_invoice_number_string_identity.2.2.2.1

/-! ## Claim C1: the tamper-code payload -/

theorem strftime_zki (dt : PyDateTime) :
    strftime dt "%d.%m.%Y %H:%M:%S" =
      pad2 dt.day ++ "." ++ pad2 dt.month ++ "." ++ pad4 dt.year ++ " "
        ++ pad2 dt.hour ++ ":" ++ pad2 dt.minute ++ ":" ++ pad2 dt.second := by
  apply String.ext
  show (strftimeGo dt
    ['%', 'd', '.', '%', 'm', '.', '%', 'Y', ' ', '%', 'H', ':', '%', 'M', ':',
     '%', 'S']).data = _
  simp [strftimeGo, strftimeDirective, String.data_append, String.singleton]

/-- Counterexample for C1 as stated: at the spec example input (identity
12312312316, timestamp 2022-01-01 00:00:00, identifier 1/X/1, total
100.00) the payload built by ZKI.calculate separates date and time with a
space, not with the literal T character the claim requires. -/
theorem C1_counterexample_timestamp_separator :
    ZKI.calculatePayload ⟨"12312312316"⟩ ⟨2022, 1, 1, 0, 0, 0⟩ ⟨"1/X/1", 1, "X", 1⟩ 10000
        = "1231231231601.01.2022 00:00:001X1100.00"
    ∧ ZKI.calculatePayload ⟨"12312312316"⟩ ⟨2022, 1, 1, 0, 0, 0⟩ ⟨"1/X/1", 1, "X", 1⟩ 10000
        ≠ "1231231231601.01.2022T00:00:001X1100.00" := by
  exact ⟨by rfl, by decide⟩

/-- Claim C1 as amended: for every identity code, timestamp, invoice
identifier and two-decimal total, the tamper-code calculator builds the
payload passed to the signer as the exact concatenation, with no
separators, of the identity code, the issue timestamp formatted as
DD.MM.YYYY HH:MM:SS (with a space between date and time, not a literal T),
the sequence number as a decimal string, the location code, the device
number as a decimal string, and the total formatted with exactly two
decimal places. -/
theorem C1_zki_payload_format (o : OIB) (dt : PyDateTime) (inv : InvoiceNumber)
    (cents : Int) :
    ZKI.calculatePayload o dt inv cents =
      o.value
        ++ (pad2 dt.day ++ "." ++ pad2 dt.month ++ "." ++ pad4 dt.year ++ " "
            ++ pad2 dt.hour ++ ":" ++ pad2 dt.minute ++ ":" ++ pad2 dt.second)
        ++ natStr inv.sequence_number ++ inv.location_code
        ++ natStr inv.device_number ++ decimal2str cents := by
  rw [ZKI.calculatePayload, strftime_zki]
  apply String.ext
  simp [String.join, String.data_append, List.append_assoc]

/-! ## Claim C2: the raw-payload signing operation -/

theorem md5_length (msg : List Nat) : (md5 msg).length = 16 := by
  simp [md5, leBytes4]

theorem flatMap_byteToHexChars_length (bs : List Nat) :
    (bs.flatMap byteToHexChars).length = 2 * bs.length := by
  induction bs with
  | nil => rfl
  | cons b rest ih =>
    rw [List.flatMap_cons, List.length_append, ih]
    show 2 + 2 * rest.length = 2 * (rest.length + 1)
    omega

theorem hexDigest_length (bs : List Nat) :
    (hexDigest bs).length = 2 * bs.length :=
  flatMap_byteToHexChars_length bs

theorem isHexLower_hexDigitChar (n : Nat) (h : n < 16) :
    isHexLowerChar (hexDigitChar n) = true := by
  interval_cases n <;> rfl

theorem hexDigest_chars (bs : List Nat) :
    ∀ c ∈ (hexDigest bs).data, isHexLowerChar c = true := by
  intro c hc
  rw [show (hexDigest bs).data = bs.flatMap byteToHexChars from rfl,
    List.mem_flatMap] at hc
  obtain ⟨b, _, hcb⟩ := hc
  rcases List.mem_cons.mp hcb with h | h
  · rw [h]; exact isHexLower_hexDigitChar _ (Nat.mod_lt _ (by omega))
  · rcases List.mem_cons.mp h with h | h
    · rw [h]; exact isHexLower_hexDigitChar _ (Nat.mod_lt _ (by omega))
    · cases h

theorem ZKI.init_accepts {s : String} (hlen : s.data.length = 32)
    (hhex : ∀ c ∈ s.data, isHexLowerChar c = true) : ZKI.init s = .ok ⟨s⟩ := by
  unfold ZKI.init
  rw [if_pos]
  rw [Bool.and_eq_true, beq_iff_eq, List.all_eq_true]
  exact ⟨hlen, fun c hc => hhex c hc⟩

/-- Claim C2: for every key and payload, the raw-payload signing operation
returns the MD5 hex digest of the RSA signature computed over the UTF-8
payload with a SHA-1 digest and PKCS1 v1.5 padding (MD5 is applied to the
signature bytes, not to the payload), and the result is a 32-character
lowercase hexadecimal code accepted by the ZKI constructor. Determinism for
a fixed key holds by construction: the model is a pure function of key and
payload, as is the Python original, since PKCS1 v1.5 signature padding is
deterministic. -/
theorem C2_sign_zki_payload (key : RSAKey) (payload : String) :
    Signer.sign_zki_payload key payload
        = hexDigest (md5 (rsaSignSha1Pkcs1 key (utf8Encode payload)))
      ∧ (Signer.sign_zki_payload key payload).length = 32
      ∧ (∀ c ∈ (Signer.sign_zki_payload key payload).data, isHexLowerChar c = true)
      ∧ ZKI.init (Signer.sign_zki_payload key payload)
          = .ok ⟨Signer.sign_zki_payload key payload⟩ := by
  have hlen : (Signer.sign_zki_payload key payload).length = 32 := by
    rw [Signer.sign_zki_payload, hexDigest_length, md5_length]
  have hhex := hexDigest_chars (md5 (rsaSignSha1Pkcs1 key (utf8Encode payload)))
  exact ⟨rfl, hlen, hhex, ZKI.init_accepts hlen hhex⟩

/-- Validation of the hash models against the standard test vectors: MD5 of
the empty message and of abc, SHA-1 of abc (RFC 1321 and RFC 3174). -/
theorem hash_model_test_vectors :
    hexDigest (md5 []) = "d41d8cd98f00b204e9800998ecf8427e"
    ∧ hexDigest (md5 (utf8Encode "abc")) = "900150983cd24fb0d6963f7d28e17f72"
    ∧ hexDigest (sha1 (utf8Encode "abc")) = "a9993e364706816aba3e25717850c26c9cd0d89d" := by
  exact ⟨by decide, by decide, by decide⟩

/-! ## Claim C6: fault decoding -/

/-- Counterexample for C6 as stated: an entry with the unrecognized code
x999 is kept in the decoded list, but its code field is none: the catalog
lookup returns no member at all, so no unknown-code placeholder exists and
the stringified form of such a detail is undefined (the Python attribute
access on None raises). -/
theorem C6_counterexample_unknown_code_is_none :
    ResponseErrorEnum.from_code "x999" = none
    ∧ ResponseErrorDetail.parse_response [⟨"x999", "msg"⟩] = [⟨none, "msg"⟩]
    ∧ ResponseErrorDetail.str ⟨none, "msg"⟩ = none := by
  refine ⟨by rfl, ?_, by rfl⟩
  rfl

/-- Claim C6 as amended: fault decoding yields one structured error per
entry, in order, mapping each code string through the catalog lookup —
which yields the matching member for a recognized code and none (not an
unknown-code placeholder) for an unrecognized one, the entry being kept
either way — except that entries bearing the no-error sentinel code v100
are filtered out; a body of only the sentinel decodes to the empty list,
and a single s005 entry decodes to one structured error stringifying as
s005 colon message. -/
theorem C6_fault_decoding :
    (∀ entries : List GreskaEntry,
      ResponseErrorDetail.parse_response entries =
        (entries.filter (fun i => !(i.SifraGreske == "v100"))).map
          (fun i => ⟨ResponseErrorEnum.from_code i.SifraGreske, i.PorukaGreske⟩))
    ∧ (∀ m, ResponseErrorDetail.parse_response [⟨"v100", m⟩] = [])
    ∧ (∀ m, ResponseErrorDetail.parse_response [⟨"s005", m⟩] =
        [⟨some .OIB_MISMATCH, m⟩])
    ∧ (∀ m, ResponseErrorDetail.str ⟨some .OIB_MISMATCH, m⟩ = some ("s005: " ++ m)) := by
  refine ⟨?_, ?_, ?_, ?_⟩
  · intro entries
    induction entries with
    | nil => rfl
    | cons i rest ih =>
      simp only [ResponseErrorDetail.parse_response]
      cases hi : (i.SifraGreske == ResponseErrorEnum.NO_ERROR.value) with
      | true =>
        simp only [if_true]
        rw [ih, List.filter_cons]
        have : (!(i.SifraGreske == "v100")) = false := by
          rw [beq_iff_eq] at hi
          simp [hi]
          rfl
        rw [this]
        simp
      | false =>
        simp only [Bool.false_eq_true, if_false]
        rw [ih, List.filter_cons]
        have : (!(i.SifraGreske == "v100")) = true := by
          have : (i.SifraGreske == "v100") = false := hi
          simp [this]
        rw [this]
        simp
  · intro m; rfl
  · intro m; rfl
  · intro m; rfl

/-! ## Claim C7: InvoiceWithDoc accompanying-document fields -/

/-- Counterexample for C7 as stated: with both the document reference id and
the document tamper code set, serialization does not fail; the reference id
takes precedence and JirPD is emitted. -/
theorem C7_counterexample_both_set_succeeds :
    InvoiceWithDoc.buildPrateciDokument (some "1702455851418943")
        (some ⟨"abcdabcdabcdabcdabcdabcdabcdabcd"⟩)
      = .ok (.JirPD "1702455851418943")
    ∧ (InvoiceWithDoc.buildPrateciDokument (some "1702455851418943")
        (some ⟨"abcdabcdabcdabcdabcdabcdabcdabcd"⟩)).isOk = true := by
  exact ⟨rfl, rfl⟩

/-- Claim C7 as amended: InvoiceWithDoc serialization fails with a
structural error when neither the document reference id nor the document
tamper code is set; with exactly one set it emits the corresponding
alternative field; when both are set it does not fail: the reference id
takes precedence and JirPD is emitted. An empty reference id string counts
as unset. -/
theorem C7_with_doc_document_fields :
    InvoiceWithDoc.buildPrateciDokument none none =
      .error "Either document_jir or document_zki must be set"
    ∧ (∀ j : String, j ≠ "" → ∀ zkiOpt : Option ZKI,
        InvoiceWithDoc.buildPrateciDokument (some j) zkiOpt = .ok (.JirPD j))
    ∧ (∀ z : ZKI,
        InvoiceWithDoc.buildPrateciDokument none (some z) = .ok (.ZastKodPD z))
    ∧ (∀ zkiOpt : Option ZKI,
        InvoiceWithDoc.buildPrateciDokument (some "") zkiOpt =
          InvoiceWithDoc.buildPrateciDokument none zkiOpt) := by
  refine ⟨rfl, ?_, fun z => rfl, fun zkiOpt => rfl⟩
  intro j hj zkiOpt
  unfold InvoiceWithDoc.buildPrateciDokument
  have ht : truthyOptStr (some j) = true := by
    simp [truthyOptStr, hj]
  rw [ht, if_pos rfl]
  rfl

/-- Witness for C7 at concrete inputs: with only the reference id set (and
the tamper code also set), JirPD is emitted. -/
theorem C7_with_doc_document_fields_witness :
    InvoiceWithDoc.buildPrateciDokument (some "J1")
        (some ⟨"abcdabcdabcdabcdabcdabcdabcdabcd"⟩) = .ok (.JirPD "J1") :=
  C7_with_doc_document_fields.2.1 "J1" (by decide)
    (some ⟨"abcdabcdabcdabcdabcdabcdabcdabcd"⟩)

/-! ## Claim C8: protocol-client fault normalization -/

/-- Claim C8: the call wrapper passes successful responses through; a fault
whose detail is unparsable XML or has no recognizable body element is raised
as the aggregate ResponseError with an empty detail list instead of
propagating the parser exception, and only a well-formed fault body is
decoded into a ResponseError carrying the structured detail list. -/
theorem C8_fault_normalization :
    (∀ (α : Type) (r : α), FiskalClient.callService (.success r) = .ok r)
    ∧ (@FiskalClient.callService Unit (.fault .malformedXml) =
        .error ⟨"Service error", []⟩)
    ∧ (@FiskalClient.callService Unit (.fault .parsedWithoutBody) =
        .error ⟨"Service error", []⟩)
    ∧ (∀ entries : List GreskaEntry,
        @FiskalClient.callService Unit (.fault (.parsedWithBody entries)) =
          .error ⟨"Service error", ResponseErrorDetail.parse_response entries⟩) := by
  exact ⟨fun α r => rfl, rfl, rfl, fun entries => rfl⟩

/-! ## Claim C9: the verification QR link -/

theorem digitChar_isDigit (n : Nat) : (digitChar n).isDigit = true := by
  rcases n with _ | _ | _ | _ | _ | _ | _ | _ | _ | n <;> rfl

theorem natStrGo_digits (fuel : Nat) : ∀ (n : Nat) (acc : List Char),
    (∀ c ∈ acc, c.isDigit = true) → ∀ c ∈ natStrGo fuel n acc, c.isDigit = true := by
  induction fuel with
  | zero => intro n acc hacc c hc; exact hacc c hc
  | succ fuel ih =>
    intro n acc hacc c hc
    rw [natStrGo] at hc
    by_cases h : n < 10
    · rw [if_pos h] at hc
      rcases List.mem_cons.mp hc with hc | hc
      · rw [hc]; exact digitChar_isDigit n
      · exact hacc c hc
    · rw [if_neg h] at hc
      refine ih _ _ ?_ c hc
      intro d hd
      rcases List.mem_cons.mp hd with hd | hd
      · rw [hd]; exact digitChar_isDigit _
      · exact hacc d hd

theorem natStr_digits (n : Nat) : ∀ c ∈ (natStr n).data, c.isDigit = true := by
  intro c hc
  exact natStrGo_digits (n + 1) n [] (by intro d hd; cases hd) c hc

theorem pad2_digits (n : Nat) : ∀ c ∈ (pad2 n).data, c.isDigit = true := by
  intro c hc
  unfold pad2 at hc
  by_cases h : n < 10
  · rw [if_pos h] at hc
    rcases List.mem_cons.mp hc with hc | hc
    · rw [hc]; rfl
    · rcases List.mem_cons.mp hc with hc | hc
      · rw [hc]; exact digitChar_isDigit n
      · cases hc
  · rw [if_neg h] at hc
    exact natStr_digits n c hc

theorem mem_zeros {c : Char} {l : List Char} (hl : ∀ d ∈ l, d = '0')
    (hc : c ∈ l) : c.isDigit = true := by
  rw [hl c hc]; rfl

theorem pad4_digits (n : Nat) : ∀ c ∈ (pad4 n).data, c.isDigit = true := by
  intro c hc
  unfold pad4 at hc
  by_cases h1 : n < 10
  · rw [if_pos h1, String.data_append] at hc
    rcases List.mem_append.mp hc with hc | hc
    · exact mem_zeros (by decide) hc
    · exact natStr_digits n c hc
  · rw [if_neg h1] at hc
    by_cases h2 : n < 100
    · rw [if_pos h2, String.data_append] at hc
      rcases List.mem_append.mp hc with hc | hc
      · exact mem_zeros (by decide) hc
      · exact natStr_digits n c hc
    · rw [if_neg h2] at hc
      by_cases h3 : n < 1000
      · rw [if_pos h3, String.data_append] at hc
        rcases List.mem_append.mp hc with hc | hc
        · exact mem_zeros (by decide) hc
        · exact natStr_digits n c hc
      · rw [if_neg h3] at hc
        exact natStr_digits n c hc

theorem intStr_chars (i : Int) :
    ∀ c ∈ (intStr i).data, c.isDigit = true ∨ c = '-' := by
  intro c hc
  unfold intStr at hc
  rw [String.data_append] at hc
  rcases List.mem_append.mp hc with hc | hc
  · by_cases h : i < 0
    · rw [if_pos h] at hc
      rcases List.mem_cons.mp hc with hc | hc
      · exact Or.inr hc
      · cases hc
    · rw [if_neg h] at hc
      cases hc
  · exact Or.inl (natStr_digits i.natAbs c hc)

theorem safe_of_digit {c : Char} (h : c.isDigit = true) :
    c.toNat < 128 ∧ urlSafeByte c.toNat = true := by
  simp only [Char.isDigit, decide_eq_true_eq, Bool.and_eq_true] at h
  have h1 : 48 ≤ c.toNat := h.1
  have h2 : c.toNat ≤ 57 := h.2
  refine ⟨by omega, ?_⟩
  simp only [urlSafeByte, Bool.or_eq_true, Bool.and_eq_true, decide_eq_true_eq,
    beq_iff_eq]
  omega

theorem safe_of_alnum {c : Char} (h : asciiAlnum c = true) :
    c.toNat < 128 ∧ urlSafeByte c.toNat = true := by
  simp only [asciiAlnum, Bool.or_eq_true] at h
  rcases h with (h | h) | h
  · exact safe_of_digit h
  · simp only [Bool.and_eq_true, decide_eq_true_eq] at h
    have h1 : 97 ≤ c.toNat := h.1
    have h2 : c.toNat ≤ 122 := h.2
    refine ⟨by omega, ?_⟩
    simp only [urlSafeByte, Bool.or_eq_true, Bool.and_eq_true, decide_eq_true_eq,
      beq_iff_eq]
    omega
  · simp only [Bool.and_eq_true, decide_eq_true_eq] at h
    have h1 : 65 ≤ c.toNat := h.1
    have h2 : c.toNat ≤ 90 := h.2
    refine ⟨by omega, ?_⟩
    simp only [urlSafeByte, Bool.or_eq_true, Bool.and_eq_true, decide_eq_true_eq,
      beq_iff_eq]
    omega

theorem safe_of_hexLower {c : Char} (h : isHexLowerChar c = true) :
    c.toNat < 128 ∧ urlSafeByte c.toNat = true := by
  simp only [isHexLowerChar, Bool.or_eq_true] at h
  rcases h with h | h
  · exact safe_of_digit h
  · simp only [Bool.and_eq_true, decide_eq_true_eq] at h
    have h1 : 97 ≤ c.toNat := h.1
    have h2 : c.toNat ≤ 102 := h.2
    refine ⟨by omega, ?_⟩
    simp only [urlSafeByte, Bool.or_eq_true, Bool.and_eq_true, decide_eq_true_eq,
      beq_iff_eq]
    omega

theorem utf8EncodeChar_ascii {c : Char} (h : c.toNat < 128) :
    utf8EncodeChar c = [c.toNat] := by
  unfold utf8EncodeChar
  rw [if_pos h]

theorem quotePlus_data_safe (l : List Char)
    (h : ∀ c ∈ l, c.toNat < 128 ∧ urlSafeByte c.toNat = true) :
    (l.flatMap utf8EncodeChar).flatMap quotePlusByte = l := by
  induction l with
  | nil => rfl
  | cons c rest ih =>
    obtain ⟨h1, h2⟩ := h c (List.mem_cons_self c rest)
    have hne : (c.toNat == 32) = false := by
      rw [beq_eq_false_iff_ne]
      intro he
      rw [he] at h2
      exact absurd h2 (by decide)
    rw [List.flatMap_cons, utf8EncodeChar_ascii h1, List.flatMap_append,
      ih (fun d hd => h d (List.mem_cons_of_mem c hd)),
      List.flatMap_cons, List.flatMap_nil, List.append_nil]
    show quotePlusByte c.toNat ++ rest = c :: rest
    unfold quotePlusByte
    rw [hne]
    simp only [Bool.false_eq_true, if_false, h2, if_true]
    rw [Char.ofNat_toNat]
    rfl

theorem quotePlus_safe (s : String)
    (h : ∀ c ∈ s.data, c.toNat < 128 ∧ urlSafeByte c.toNat = true) :
    quotePlus s = s := by
  apply String.ext
  exact quotePlus_data_safe s.data h

theorem strftime_qr (dt : PyDateTime) :
    strftime dt "%Y%m%d_%H%M" =
      pad4 dt.year ++ pad2 dt.month ++ pad2 dt.day ++ "_"
        ++ pad2 dt.hour ++ pad2 dt.minute := by
  apply String.ext
  show (strftimeGo dt ['%', 'Y', '%', 'm', '%', 'd', '_', '%', 'H', '%', 'M']).data = _
  simp [strftimeGo, strftimeDirective, String.data_append, String.singleton]

theorem datv_safe (dt : PyDateTime) :
    ∀ c ∈ (pad4 dt.year ++ pad2 dt.month ++ pad2 dt.day ++ "_"
        ++ pad2 dt.hour ++ pad2 dt.minute).data,
      c.toNat < 128 ∧ urlSafeByte c.toNat = true := by
  intro c hc
  simp only [String.data_append] at hc
  simp only [List.append_assoc, List.mem_append] at hc
  rcases hc with hc | hc | hc | hc | hc | hc
  · exact safe_of_digit (pad4_digits _ c hc)
  · exact safe_of_digit (pad2_digits _ c hc)
  · exact safe_of_digit (pad2_digits _ c hc)
  · rcases hc with _ | ⟨_, hc⟩
    · exact ⟨by decide, by decide⟩
    · cases hc
  · exact safe_of_digit (pad2_digits _ c hc)
  · exact safe_of_digit (pad2_digits _ c hc)

theorem izn_safe (i : Int) :
    ∀ c ∈ (intStr i).data, c.toNat < 128 ∧ urlSafeByte c.toNat = true := by
  intro c hc
  rcases intStr_chars i c hc with h | h
  · exact safe_of_digit h
  · rw [h]; exact ⟨by decide, by decide⟩

/-- Claim C9: for every invoice with identity, identifier and total set,
the verification QR link is the base URL with query parameters izn (the
two-decimal total multiplied by 123 and truncated to an integer), datv
(the issue timestamp as YYYYMMDD_HHMM) and exactly one of jir (when a
confirmation id is supplied) or zki (the computed tamper code, when none
is supplied) — never both. Stated for tamper codes made of lowercase
hexadecimal characters (the ZKI invariant) and alphanumeric confirmation
ids, on which URL quoting is the identity. -/
theorem C9_qr_link (cents : Int) (dt : PyDateTime) (z : ZKI)
    (hz : ∀ c ∈ z.value.data, isHexLowerChar c = true) :
    Invoice.get_qr_link cents dt z none =
      "https://porezna.gov.hr/rn?izn=" ++ intStr (ratTrunc (123 * (cents : Rat) / 100))
        ++ "&datv=" ++ (pad4 dt.year ++ pad2 dt.month ++ pad2 dt.day ++ "_"
            ++ pad2 dt.hour ++ pad2 dt.minute)
        ++ "&zki=" ++ z.value
    ∧ (∀ j : String, j ≠ "" → (∀ c ∈ j.data, asciiAlnum c = true) →
        Invoice.get_qr_link cents dt z (some j) =
          "https://porezna.gov.hr/rn?izn="
            ++ intStr (ratTrunc (123 * (cents : Rat) / 100))
            ++ "&datv=" ++ (pad4 dt.year ++ pad2 dt.month ++ pad2 dt.day ++ "_"
                ++ pad2 dt.hour ++ pad2 dt.minute)
            ++ "&jir=" ++ j) := by
  have hqizn := quotePlus_safe _ (izn_safe (ratTrunc (123 * (cents : Rat) / 100)))
  have hqdatv := quotePlus_safe _ (datv_safe dt)
  constructor
  · show BASE_INVOICE_QR_CHECK_URL ++ "?" ++ urlencode _ = _
    rw [strftime_qr]
    show _ ++ "?" ++ (quotePlus "izn" ++ "=" ++ quotePlus _ ++ "&"
      ++ (quotePlus "datv" ++ "=" ++ quotePlus _ ++ "&"
        ++ (quotePlus "zki" ++ "=" ++ quotePlus z.value))) = _
    rw [hqizn, hqdatv,
      quotePlus_safe z.value (fun c hc => safe_of_hexLower (hz c hc)),
      show quotePlus "izn" = "izn" by decide,
      show quotePlus "datv" = "datv" by decide,
      show quotePlus "zki" = "zki" by decide]
    apply String.ext
    simp [String.data_append, BASE_INVOICE_QR_CHECK_URL]
  · intro j hj hja
    show BASE_INVOICE_QR_CHECK_URL ++ "?" ++ urlencode _ = _
    have ht : truthyOptStr (some j) = true := by simp [truthyOptStr, hj]
    simp only [Invoice.get_qr_link, ht, if_true]
    rw [strftime_qr]
    show _ ++ "?" ++ (quotePlus "izn" ++ "=" ++ quotePlus _ ++ "&"
      ++ (quotePlus "datv" ++ "=" ++ quotePlus _ ++ "&"
        ++ (quotePlus "jir" ++ "=" ++ quotePlus j))) = _
    rw [hqizn, hqdatv,
      quotePlus_safe j (fun c hc => safe_of_alnum (hja c hc)),
      show quotePlus "izn" = "izn" by decide,
      show quotePlus "datv" = "datv" by decide,
      show quotePlus "jir" = "jir" by decide]
    apply String.ext
    simp [String.data_append, BASE_INVOICE_QR_CHECK_URL]

/-- Witness for C9 at concrete inputs: total 314.16 on 2022-12-31 23:59
with a concrete tamper code, once without and once with a confirmation
id. -/
theorem C9_qr_link_witness :
    Invoice.get_qr_link 31416 ⟨2022, 12, 31, 23, 59, 0⟩
        ⟨"abcdabcdabcdabcdabcdabcdabcdabcd"⟩ none =
      "https://porezna.gov.hr/rn?izn="
        ++ intStr (ratTrunc (123 * ((31416 : Int) : Rat) / 100))
        ++ "&datv=" ++ (pad4 2022 ++ pad2 12 ++ pad2 31 ++ "_" ++ pad2 23 ++ pad2 59)
        ++ "&zki=" ++ "abcdabcdabcdabcdabcdabcdabcdabcd"
    ∧ Invoice.get_qr_link 31416 ⟨2022, 12, 31, 23, 59, 0⟩
        ⟨"abcdabcdabcdabcdabcdabcdabcdabcd"⟩ (some "a1b2") =
      "https://porezna.gov.hr/rn?izn="
        ++ intStr (ratTrunc (123 * ((31416 : Int) : Rat) / 100))
        ++ "&datv=" ++ (pad4 2022 ++ pad2 12 ++ pad2 31 ++ "_" ++ pad2 23 ++ pad2 59)
        ++ "&jir=" ++ "a1b2" :=
  ⟨(C9_qr_link 31416 ⟨2022, 12, 31, 23, 59, 0⟩
      ⟨"abcdabcdabcdabcdabcdabcdabcdabcd"⟩ (by decide)).1,
   (C9_qr_link 31416 ⟨2022, 12, 31, 23, 59, 0⟩
      ⟨"abcdabcdabcdabcdabcdabcdabcdabcd"⟩ (by decide)).2
      "a1b2" (by decide) (by decide)⟩

end FiskalHR
